import Mathlib

/-!
Verification of the gorouter route-service redirection middleware
(handlers/route_service.go) and the proxy response writer
(proxy/utils/responsewriter.go), via a shallow embedding in Lean 4.

Go maps, header maps and mutable struct fields are modelled by explicit
state passing; Go code that can panic is modelled with Option (none is
the panic); Go functions returning (value, error) are modelled with
Except or a pair carrying an Option error.
-/

namespace Gorouter

/-! ## Header maps

In Go, http.Header is a map from canonicalised key to a list of values.
All accesses in the embedded code use the same fixed literal keys, so
canonicalisation is the identity on them and the map is modelled as an
association list from key to single value, with Get returning the empty
string when the key is absent (the Header.Get behaviour of Go), Set replacing
the value and Del removing the key. -/

abbrev Headers : Type := List (String × String)

def Headers.get (h : Headers) (k : String) : String :=
  match h.find? (fun p => p.1 = k) with
  | some p => p.2
  | none => ""

def Headers.del (h : Headers) (k : String) : Headers :=
  h.filter (fun p => p.1 ≠ k)

def Headers.set (h : Headers) (k v : String) : Headers :=
  (k, v) :: h.del k

/-- Modelled from the spec: the three route-service protocol header names
(signature, metadata, forwarded-URL). Their literal spellings live in the
routeservice package, outside the given sources; only their distinctness
and fixed identity matter here. -/
def RouteServiceSignature : String := "X-CF-Proxy-Signature"

/-- Modelled from the spec: the metadata header name. -/
def RouteServiceMetadata : String := "X-CF-Proxy-Metadata"

/-- Modelled from the spec: the forwarded-URL header name. -/
def RouteServiceForwardedURL : String := "X-CF-Forwarded-Url"

/-! ## Route pools and collaborators -/

/-- route.Pool as this middleware observes it: a route-service URL
(empty string means no indirection) and an emptiness predicate. -/
structure Pool where
  routeServiceUrl : String
  isEmpty : Bool
deriving DecidableEq, Repr

/-- url.URL as consumed here: only Host and Path are read. -/
structure ParsedUrl where
  host : String
  path : String
deriving DecidableEq, Repr

/-- routeservice.RouteServiceRequest: the signed parameters produced by
the config collaborator on the outbound leg. -/
structure RouteServiceRequest where
  urlString : String
  signature : String
  metadata : String
  forwardedURL : String
  parsedUrl : ParsedUrl
deriving DecidableEq, Repr

/-- routeservice.RouteServiceConfig, the external collaborator: feature
flag, scheme recommendation, signature validation (some err = failure)
and signed-parameter generation. -/
structure RouteServiceConfig where
  routeServiceEnabled : Bool
  recommendHttps : Bool
  validateSignature : Headers → String → Option String
  generateRequest : String → String → Except String RouteServiceRequest

/-- The request as this middleware observes it: host, request URI,
header map, and the per-request context values it reads or writes
(the RoutePool key and the RouteServiceURLCtxKey key). -/
structure Request where
  host : String
  requestURI : String
  headers : Headers
  ctxRoutePool : Option Pool
  ctxRouteServiceURL : Option ParsedUrl

/-- The routeService handler struct: registry lookup and config.
The reverse proxy and logger collaborators are pure effect sinks and are
recorded in the result instead. -/
structure RouteServiceHandler where
  routeRegistryLookup : String → Option Pool
  config : RouteServiceConfig

/-- Observable outcome of one ServeHTTP call: what was written to the
response, how often the continuation and the delegated route-service
proxy were invoked and with which request, and the argument list of
every call to the signing collaborator. -/
structure RSResult where
  responseStatus : Option Nat
  responseBody : String
  responseHeaders : Headers
  nextCalls : Nat
  nextRequest : Option Request
  proxyCalls : Nat
  proxyRequest : Option Request
  signingCalls : List (String × String)

/-- Modelled from the spec: hostWithoutPort strips the port from the
request host, keeping everything before the first colon. The helper
lives in the handlers package outside the given sources; the spec names
the value only as the host without its port. -/
def hostWithoutPort (req : Request) : String :=
  (req.host.toList.takeWhile (fun c => c ≠ ':')).asString

/-- The canonical forwarded URL of lines 76-84 of the middleware:
scheme chosen by the recommend-HTTPS flag, then host without port, then
the original request URI. -/
def forwardedURLRaw (cfg : RouteServiceConfig) (req : Request) : String :=
  (if cfg.recommendHttps then "https" else "http") ++ "://" ++ hostWithoutPort req ++ req.requestURI

/-- hasBeenToRouteService from the middleware source: return-leg
classification by signature-header presence. -/
def hasBeenToRouteService (rsUrl sigHeader : String) : Bool :=
  sigHeader ≠ "" && rsUrl ≠ ""

/-- Modelled from the spec: writeStatus, which lives outside the given
sources, writes the given status code and the given fixed message as the
body of the response (the spec quotes the message strings as the
client-visible bodies). -/
def writeStatus (st : Nat) (message : String) (base : Headers) : RSResult :=
  { responseStatus := some st
    responseBody := message
    responseHeaders := base
    nextCalls := 0
    nextRequest := none
    proxyCalls := 0
    proxyRequest := none
    signingCalls := [] }

/-- The rsPool nil-or-empty test of the outbound leg (rsPool is nil or
rsPool.IsEmpty()). -/
def poolNilOrEmpty (o : Option Pool) : Bool :=
  match o with
  | none => true
  | some p => p.isEmpty

/-- routeService.ServeHTTP, translated clause by clause from the source.
Effects on the response writer, the continuation, the delegated proxy
and the signing collaborator are collected in the returned RSResult. -/
def ServeHTTP (r : RouteServiceHandler) (req : Request) : RSResult :=
  match req.ctxRoutePool with
  | none =>
      -- http.Error(rw, "RoutePool not set on context", http.StatusBadGateway)
      writeStatus 502 "RoutePool not set on context" []
  | some routePool =>
    let routeServiceUrl := routePool.routeServiceUrl
    if routeServiceUrl ≠ "" ∧ ¬ r.config.routeServiceEnabled then
      writeStatus 502 "Support for route services is disabled."
        (Headers.set [] "X-Cf-RouterError" "route_service_unsupported")
    else if routeServiceUrl ≠ "" then
      let rsSignature := req.headers.get RouteServiceSignature
      let fwd := forwardedURLRaw r.config req
      if hasBeenToRouteService routeServiceUrl rsSignature then
        match r.config.validateSignature req.headers fwd with
        | some _err =>
            writeStatus 400 "Failed to validate Route Service Signature" []
        | none =>
            let strippedHeaders :=
              ((req.headers.del RouteServiceSignature).del RouteServiceMetadata).del
                RouteServiceForwardedURL
            let req1 := { req with headers := strippedHeaders }
            { responseStatus := none, responseBody := "", responseHeaders := []
              nextCalls := 1, nextRequest := some req1
              proxyCalls := 0, proxyRequest := none, signingCalls := [] }
      else
        match r.config.generateRequest routeServiceUrl fwd with
        | Except.error _e =>
            { writeStatus 500 "Route service request failed." [] with
              signingCalls := [(routeServiceUrl, fwd)] }
        | Except.ok args =>
            let signedHeaders :=
              ((req.headers.set RouteServiceSignature args.signature).set
                RouteServiceMetadata args.metadata).set
                RouteServiceForwardedURL args.forwardedURL
            let req1 := { req with headers := signedHeaders }
            let req2 := { req1 with ctxRouteServiceURL := some args.parsedUrl }
            let routeURI := args.parsedUrl.host ++ args.parsedUrl.path
            let rsPool := r.routeRegistryLookup routeURI
            let req3 := { req2 with ctxRoutePool := rsPool }
            if poolNilOrEmpty rsPool then
              { responseStatus := none, responseBody := "", responseHeaders := []
                nextCalls := 0, nextRequest := none
                proxyCalls := 1, proxyRequest := some req3
                signingCalls := [(routeServiceUrl, fwd)] }
            else
              { responseStatus := none, responseBody := "", responseHeaders := []
                nextCalls := 1, nextRequest := some req3
                proxyCalls := 0, proxyRequest := none
                signingCalls := [(routeServiceUrl, fwd)] }
    else
      { responseStatus := none, responseBody := "", responseHeaders := []
        nextCalls := 1, nextRequest := some req
        proxyCalls := 0, proxyRequest := none, signingCalls := [] }

/-! ## Proxy response writer

proxy/utils/responsewriter.go. The underlying http.ResponseWriter is
modelled as a state recording its header map, the chunks and statuses
forwarded to it, and its optional capabilities (flush, hijack,
close-notify). Bytes are modelled as Nat; a Go channel is modelled by
the list of values ever sent on it, so a channel never emits exactly
when that list is empty. -/

/-- A Go channel of booleans, abstracted to the list of values ever sent
on it: receiving can deliver a value exactly when some send happened. -/
structure BoolChan where
  sent : List Bool
deriving DecidableEq, Repr

/-- The underlying http.ResponseWriter collaborator: its header map, the
data and status writes forwarded to it, an error its Write returns, and
its optional flush / hijack / close-notify capabilities. For headers a
value of none models a Go nil value slice (the explicit absent value the
writer stores to suppress content-type sniffing). -/
structure UnderlyingWriter where
  header : List (String × Option (List String))
  chunks : List (List Nat)
  statuses : List Int
  writeErr : Option String
  isFlusher : Bool
  flushCount : Nat
  hijackResult : Option (Except String Nat)
  closeChan : Option BoolChan
deriving Repr

/-- Presence test on the underlying header map (the comma-ok form of a
Go map read). -/
def UnderlyingWriter.headerHas (w : UnderlyingWriter) (k : String) : Bool :=
  (w.header.find? (fun p => p.1 = k)).isSome

/-- Store a value (possibly the nil slice) under a key of the underlying
header map. -/
def UnderlyingWriter.headerStore (w : UnderlyingWriter) (k : String)
    (v : Option (List String)) : UnderlyingWriter :=
  { w with header := (k, v) :: w.header.filter (fun p => p.1 ≠ k) }

/-- proxyResponseWriter: the wrapped writer, the recorded status
(0 = unset), the cumulative size, whether the flusher field is non-nil,
and the completion latch. -/
structure ProxyResponseWriter where
  w : UnderlyingWriter
  status : Int
  size : Nat
  hasFlusher : Bool
  done : Bool
deriving Repr

/-- NewProxyResponseWriter. The source initialises the flusher field
with the unchecked type assertion on the flush capability, which panics
when the wrapped writer does not implement it; the panic is modelled as
none. -/
def NewProxyResponseWriter (w : UnderlyingWriter) : Option ProxyResponseWriter :=
  if w.isFlusher then
    some { w := w, status := 0, size := 0, hasFlusher := true, done := false }
  else
    none

/-- proxyResponseWriter.WriteHeader: early return when done; otherwise
suppress content-type sniffing when the caller set no Content-Type,
forward the status to the underlying writer, and record it only when no
status was recorded yet. -/
def ProxyResponseWriter.WriteHeader (p : ProxyResponseWriter) (s : Int) :
    ProxyResponseWriter :=
  if p.done then p
  else
    let w1 := if p.w.headerHas "Content-Type" then p.w
              else p.w.headerStore "Content-Type" none
    let w2 := { w1 with statuses := w1.statuses ++ [s] }
    let p1 := { p with w := w2 }
    if p1.status = 0 then { p1 with status := s } else p1

/-- proxyResponseWriter.Write: returns (0, nil) when done; performs the
implicit WriteHeader 200 when no status is recorded; forwards the bytes,
accumulates the returned count into size and propagates the underlying
error. The underlying writer accepts the whole chunk and reports its
configured error. -/
def ProxyResponseWriter.Write (p : ProxyResponseWriter) (b : List Nat) :
    ProxyResponseWriter × (Nat × Option String) :=
  if p.done then (p, (0, none))
  else
    let p1 := if p.status = 0 then p.WriteHeader 200 else p
    let n := b.length
    let p2 := { p1 with w := { p1.w with chunks := p1.w.chunks ++ [b] }
                        size := p1.size + n }
    (p2, (n, p1.w.writeErr))

/-- proxyResponseWriter.Done: sets the one-way completion latch. -/
def ProxyResponseWriter.Done (p : ProxyResponseWriter) : ProxyResponseWriter :=
  { p with done := true }

/-- proxyResponseWriter.Flush: forwards to the flusher when the field is
non-nil, otherwise does nothing. -/
def ProxyResponseWriter.Flush (p : ProxyResponseWriter) : ProxyResponseWriter :=
  if p.hasFlusher then { p with w := { p.w with flushCount := p.w.flushCount + 1 } }
  else p

/-- proxyResponseWriter.Status. -/
def ProxyResponseWriter.Status (p : ProxyResponseWriter) : Int := p.status

/-- proxyResponseWriter.Size. -/
def ProxyResponseWriter.Size (p : ProxyResponseWriter) : Nat := p.size

/-- proxyResponseWriter.Hijack: forwards to the hijack capability when
the wrapped writer has one (returning its connection or error),
otherwise returns the cannot-hijack error. No field of p is touched. -/
def ProxyResponseWriter.Hijack (p : ProxyResponseWriter) :
    ProxyResponseWriter × Except String Nat :=
  match p.w.hijackResult with
  | none => (p, Except.error "response writer cannot hijack")
  | some r => (p, r)

/-- proxyResponseWriter.CloseNotify: forwards to the close-notification
capability when present, otherwise returns a freshly made channel, on
which nothing is ever sent. -/
def ProxyResponseWriter.CloseNotify (p : ProxyResponseWriter) : BoolChan :=
  match p.w.closeChan with
  | some c => c
  | none => { sent := [] }

/-- One operation against the response writer, for stating trace
properties over arbitrary call sequences. -/
inductive WriterOp where
  | write (b : List Nat)
  | writeHeader (s : Int)
  | flush
  | status
  | size
deriving DecidableEq, Repr

/-- Apply one operation to the writer state (read-only operations leave
it unchanged). -/
def applyOp (p : ProxyResponseWriter) (op : WriterOp) : ProxyResponseWriter :=
  match op with
  | WriterOp.write b => (p.Write b).1
  | WriterOp.writeHeader s => p.WriteHeader s
  | WriterOp.flush => p.Flush
  | WriterOp.status => p
  | WriterOp.size => p

/-- Apply a sequence of operations left to right. -/
def applyOps (p : ProxyResponseWriter) (ops : List WriterOp) : ProxyResponseWriter :=
  ops.foldl applyOp p

/-! ## Helper lemmas -/

/-- find? over a filter whose predicate is implied by the search
predicate finds the same entry. -/
theorem find?_filter_of_imp {α : Type} (l : List α) (p q : α → Bool)
    (himp : ∀ x, p x = true → q x = true) :
    (l.filter q).find? p = l.find? p := by
  induction l with
  | nil => rfl
  | cons a t ih =>
    by_cases hq : q a = true
    · rw [List.filter_cons_of_pos hq]
      cases hp : p a
      · rw [List.find?_cons_of_neg _ (by simp [hp]), List.find?_cons_of_neg _ (by simp [hp]), ih]
      · rw [List.find?_cons_of_pos _ hp, List.find?_cons_of_pos _ hp]
    · have hp : p a = false := by
        cases hpa : p a
        · rfl
        · exact absurd (himp a hpa) hq
      rw [List.filter_cons_of_neg (by simp [hq]), List.find?_cons_of_neg _ (by simp [hp]), ih]

theorem Headers.get_del_self (h : Headers) (k : String) : (h.del k).get k = "" := by
  have : ((h.del k).find? (fun p => p.1 = k)) = none := by
    rw [List.find?_eq_none]
    intro x hx
    have := (List.mem_filter.mp hx).2
    simpa using this
  simp [Headers.get, this]

theorem Headers.get_del_ne (h : Headers) (k k' : String) (hne : k' ≠ k) :
    (h.del k).get k' = h.get k' := by
  unfold Headers.get Headers.del
  rw [find?_filter_of_imp]
  intro x hx
  simp at hx ⊢
  simp [hx, hne]

theorem Headers.get_set_self (h : Headers) (k v : String) : (h.set k v).get k = v := by
  simp [Headers.set, Headers.get]

theorem Headers.get_set_ne (h : Headers) (k v k' : String) (hne : k' ≠ k) :
    (h.set k v).get k' = h.get k' := by
  unfold Headers.set
  have step : Headers.get ((k, v) :: h.del k) k' = Headers.get (h.del k) k' := by
    unfold Headers.get
    rw [List.find?_cons_of_neg _ (by simp [Ne.symm hne])]
  rw [step, Headers.get_del_ne h k k' hne]

theorem writeHeader_of_done (p : ProxyResponseWriter) (s : Int) (h : p.done = true) :
    p.WriteHeader s = p := by
  simp [ProxyResponseWriter.WriteHeader, h]

theorem write_of_done (p : ProxyResponseWriter) (b : List Nat) (h : p.done = true) :
    p.Write b = (p, (0, none)) := by
  simp [ProxyResponseWriter.Write, h]

theorem writeHeader_chunks (p : ProxyResponseWriter) (s : Int) :
    (p.WriteHeader s).w.chunks = p.w.chunks := by
  unfold ProxyResponseWriter.WriteHeader
  split
  · rfl
  · dsimp only
    split <;> split <;> simp [UnderlyingWriter.headerStore]

theorem writeHeader_done_eq (p : ProxyResponseWriter) (s : Int) :
    (p.WriteHeader s).done = p.done := by
  unfold ProxyResponseWriter.WriteHeader
  split
  · rfl
  · dsimp only
    split <;> split <;> simp [UnderlyingWriter.headerStore]

theorem writeHeader_size (p : ProxyResponseWriter) (s : Int) :
    (p.WriteHeader s).size = p.size := by
  unfold ProxyResponseWriter.WriteHeader
  split
  · rfl
  · dsimp only
    split <;> split <;> simp [UnderlyingWriter.headerStore]

theorem writeHeader_statuses (p : ProxyResponseWriter) (s : Int) (h : p.done = false) :
    (p.WriteHeader s).w.statuses = p.w.statuses ++ [s] := by
  unfold ProxyResponseWriter.WriteHeader
  rw [if_neg (by simp [h])]
  dsimp only
  split <;> split <;> simp [UnderlyingWriter.headerStore]

theorem applyOp_of_done (p : ProxyResponseWriter) (op : WriterOp) (h : p.done = true) :
    (applyOp p op).done = true ∧ (applyOp p op).status = p.status
    ∧ (applyOp p op).size = p.size := by
  cases op with
  | write b => simp [applyOp, write_of_done p b h, h]
  | writeHeader s => simp [applyOp, writeHeader_of_done p s h, h]
  | flush =>
      have hf : (p.Flush).done = p.done ∧ (p.Flush).status = p.status
          ∧ (p.Flush).size = p.size := by
        unfold ProxyResponseWriter.Flush
        split
        · exact ⟨rfl, rfl, rfl⟩
        · exact ⟨rfl, rfl, rfl⟩
      exact ⟨hf.1.trans h, hf.2.1, hf.2.2⟩
  | status => exact ⟨h, rfl, rfl⟩
  | size => exact ⟨h, rfl, rfl⟩

theorem applyOps_of_done (ops : List WriterOp) (p : ProxyResponseWriter)
    (h : p.done = true) :
    (applyOps p ops).done = true ∧ (applyOps p ops).status = p.status
    ∧ (applyOps p ops).size = p.size := by
  induction ops generalizing p with
  | nil => exact ⟨h, rfl, rfl⟩
  | cons op rest ih =>
      have h1 := applyOp_of_done p op h
      have h2 := ih (applyOp p op) h1.1
      exact ⟨h2.1, h2.2.1.trans h1.2.1, h2.2.2.trans h1.2.2⟩

/-! ## Sample states used by witnesses and counterexamples -/

/-- A concrete underlying writer with flush and hijack capabilities and
no close-notify capability. -/
def sampleUW : UnderlyingWriter :=
  { header := [], chunks := [], statuses := [], writeErr := none,
    isFlusher := true, flushCount := 0, hijackResult := some (Except.ok 7),
    closeChan := none }

/-- A concrete underlying writer without the flush capability. -/
def sampleUWNoFlush : UnderlyingWriter :=
  { sampleUW with isFlusher := false }

/-- The wrapper freshly constructed around sampleUW. -/
def samplePRW : ProxyResponseWriter :=
  { w := sampleUW, status := 0, size := 0, hasFlusher := true, done := false }

/-- A wrapper that has already recorded status 5. -/
def samplePRW5 : ProxyResponseWriter :=
  { samplePRW with status := 5 }

/-- A concrete close-notification channel on which one value was sent. -/
def sampleChan : BoolChan := { sent := [true] }

/-- A wrapper whose underlying writer has the close-notify capability. -/
def samplePRWNotify : ProxyResponseWriter :=
  { samplePRW with w := { sampleUW with closeChan := some sampleChan } }

/-! ## Claims about the proxy response writer -/

/-- C5: once Done() has been called, the recorded status and cumulative
size never change again under any sequence of operations, a Write after
Done returns zero bytes and no error while leaving the whole state (in
particular the underlying writer) untouched, and a WriteHeader after
Done has no effect at all. -/
theorem done_freezes_writer (p : ProxyResponseWriter) (ops : List WriterOp)
    (b : List Nat) (s : Int) :
    (applyOps p.Done ops).Status = p.Status
    ∧ (applyOps p.Done ops).Size = p.Size
    ∧ p.Done.Write b = (p.Done, (0, none))
    ∧ p.Done.WriteHeader s = p.Done := by
  have hall := applyOps_of_done ops p.Done rfl
  refine ⟨hall.2.1, hall.2.2, write_of_done _ b rfl, writeHeader_of_done _ s rfl⟩

/-- C8 counterexample: on a fresh writer, WriteHeader 0 followed by
WriteHeader 7 leaves recorded status 7, not the argument 0 of the first
WriteHeader performed: the second WriteHeader did change the recorded
status, because 0 is the unset sentinel of the status field. -/
theorem second_writeHeader_changes_zero_status :
    (samplePRW.WriteHeader 0).Status = 0
    ∧ ((samplePRW.WriteHeader 0).WriteHeader 7).Status = 7 := by
  exact ⟨rfl, rfl⟩

/-- C8 amended: while the writer is not done, a WriteHeader performed
with the recorded status still zero (unset) records its argument and is
forwarded to the underlying writer, a Write with recorded status zero
implicitly performs WriteHeader 200 so the recorded status becomes 200,
and once the recorded status is nonzero a subsequent WriteHeader is
still forwarded but never changes the recorded status. -/
theorem status_records_first_nonzero (p : ProxyResponseWriter) (s : Int) (b : List Nat) :
    (p.done = false → p.status = 0 → (p.WriteHeader s).Status = s)
    ∧ (p.done = false → (p.WriteHeader s).w.statuses = p.w.statuses ++ [s])
    ∧ (p.status ≠ 0 → (p.WriteHeader s).Status = p.Status)
    ∧ (p.done = false → p.status = 0 → ((p.Write b).1).Status = 200) := by
  refine ⟨?_, ?_, ?_, ?_⟩
  · intro hd h0
    unfold ProxyResponseWriter.WriteHeader
    rw [if_neg (by simp [hd])]
    dsimp only
    split <;> simp [ProxyResponseWriter.Status, UnderlyingWriter.headerStore, h0]
  · intro hd
    exact writeHeader_statuses p s hd
  · intro h0
    unfold ProxyResponseWriter.WriteHeader
    split
    · rfl
    · dsimp only
      split
      · rename_i hzero
        exact absurd hzero h0
      · rfl
  · intro hd h0
    unfold ProxyResponseWriter.Write
    rw [if_neg (by simp [hd])]
    dsimp only
    rw [if_pos h0]
    have hrec : (p.WriteHeader 200).status = 200 := by
      unfold ProxyResponseWriter.WriteHeader
      rw [if_neg (by simp [hd])]
      dsimp only
      split <;> simp [UnderlyingWriter.headerStore, h0]
    simp [ProxyResponseWriter.Status, hrec]

/-- C8 amended witness at concrete inputs: a fresh writer records 7 on
WriteHeader 7 and forwards it, records 200 on a bare Write, and a writer
with recorded status 5 keeps status 5 across WriteHeader 7. -/
theorem status_records_first_nonzero_witness :
    (samplePRW.WriteHeader 7).Status = 7
    ∧ (samplePRW.WriteHeader 7).w.statuses = samplePRW.w.statuses ++ [7]
    ∧ ((samplePRW.Write [1, 2]).1).Status = 200
    ∧ (samplePRW5.WriteHeader 7).Status = samplePRW5.Status := by
  have h := status_records_first_nonzero samplePRW 7 [1, 2]
  have h5 := status_records_first_nonzero samplePRW5 7 [1, 2]
  exact ⟨h.1 rfl rfl, h.2.1 rfl, h.2.2.2 rfl rfl, h5.2.2.1 (by decide)⟩

/-- C4: evaluating the constructor at an underlying writer that lacks
the flush capability: the unchecked type assertion on the flush
capability faults (modelled as none), so construction does not succeed
and the no-op branch of Flush, guarded by a nil test that expects a
possibly-nil flusher field, is unreachable. -/
theorem construction_faults_without_flusher :
    NewProxyResponseWriter sampleUWNoFlush = none := rfl

/-- C9: CloseNotify on a wrapper whose underlying writer lacks the
close-notification capability returns a channel on which no value is
ever sent, hence one that never emits, and never an error; when the
capability is present CloseNotify forwards to it, returning the
underlying channel itself. -/
theorem closeNotify_default_never_emits (p : ProxyResponseWriter) :
    (p.w.closeChan = none → (p.CloseNotify).sent = [])
    ∧ (∀ c, p.w.closeChan = some c → p.CloseNotify = c) := by
  constructor
  · intro h
    simp [ProxyResponseWriter.CloseNotify, h]
  · intro c h
    simp [ProxyResponseWriter.CloseNotify, h]

/-- C9 witness: the sample wrapper without the capability yields the
silent channel; the sample wrapper with the capability yields the
underlying channel. -/
theorem closeNotify_default_never_emits_witness :
    (samplePRW.CloseNotify).sent = [] ∧ samplePRWNotify.CloseNotify = sampleChan := by
  exact ⟨(closeNotify_default_never_emits samplePRW).1 rfl,
         (closeNotify_default_never_emits samplePRWNotify).2 sampleChan rfl⟩

/-- C10: a successful Hijack returns the wrapper state unchanged: the
completion flag stays false and the recorded status and size are
untouched, so a subsequent Write still forwards its chunk and a
subsequent WriteHeader still forwards its status to the underlying
writer; the writer is not marked done by hijacking. -/
theorem hijack_preserves_state (p : ProxyResponseWriter) (conn : Nat)
    (b : List Nat) (s : Int)
    (hcap : p.w.hijackResult = some (Except.ok conn)) (hnd : p.done = false) :
    p.Hijack = (p, Except.ok conn)
    ∧ (p.Hijack).1.done = false
    ∧ (p.Hijack).1.Status = p.Status
    ∧ (p.Hijack).1.Size = p.Size
    ∧ (((p.Hijack).1.Write b).1).w.chunks = p.w.chunks ++ [b]
    ∧ ((p.Hijack).1.WriteHeader s).w.statuses = p.w.statuses ++ [s] := by
  have hj : p.Hijack = (p, Except.ok conn) := by
    simp [ProxyResponseWriter.Hijack, hcap]
  refine ⟨hj, ?_, ?_, ?_, ?_, ?_⟩
  · rw [hj]; exact hnd
  · rw [hj]
  · rw [hj]
  · rw [hj]
    unfold ProxyResponseWriter.Write
    rw [if_neg (by simp [hnd])]
    dsimp only
    split
    · simp [writeHeader_chunks]
    · simp
  · rw [hj]
    exact writeHeader_statuses p s hnd

/-- C10 witness: the fresh sample wrapper hijacks successfully to
connection 7 with state untouched, and both write operations still
forward. -/
theorem hijack_preserves_state_witness :
    samplePRW.Hijack = (samplePRW, Except.ok 7)
    ∧ (samplePRW.Hijack).1.done = false
    ∧ (((samplePRW.Hijack).1.Write [9]).1).w.chunks = samplePRW.w.chunks ++ [[9]]
    ∧ ((samplePRW.Hijack).1.WriteHeader 201).w.statuses = samplePRW.w.statuses ++ [201] := by
  have h := hijack_preserves_state samplePRW 7 [9] 201 rfl rfl
  exact ⟨h.1, h.2.1, h.2.2.2.2.1, h.2.2.2.2.2⟩

/-! ## Sample middleware collaborators used by witnesses -/

/-- Parsed URL of the sample route service. -/
def sampleParsed : ParsedUrl := { host := "rs.example.com", path := "/rs" }

/-- A concrete config: enabled, recommends HTTPS, accepts exactly the
signature value good, and signs deterministically. -/
def sampleCfg : RouteServiceConfig :=
  { routeServiceEnabled := true
    recommendHttps := true
    validateSignature := fun h _ =>
      if h.get RouteServiceSignature = "good" then none else some "invalid"
    generateRequest := fun u f => Except.ok
      { urlString := u, signature := "sig1", metadata := "md1",
        forwardedURL := f, parsedUrl := sampleParsed } }

/-- Registry in which the route service resolves to no pool (fully
external route service). -/
def sampleHandlerExternal : RouteServiceHandler :=
  { routeRegistryLookup := fun _ => none, config := sampleCfg }

/-- A non-empty pool without route-service URL, used as the internally
hosted route service has this pool as its own. -/
def sampleInternalPool : Pool := { routeServiceUrl := "", isEmpty := false }

/-- Registry in which the route service resolves to a non-empty pool
(internally hosted route service). -/
def sampleHandlerInternal : RouteServiceHandler :=
  { routeRegistryLookup := fun _ => some sampleInternalPool, config := sampleCfg }

/-- Registry in which the route service resolves to an empty pool. -/
def sampleHandlerEmptyPool : RouteServiceHandler :=
  { routeRegistryLookup := fun _ => some { routeServiceUrl := "", isEmpty := true },
    config := sampleCfg }

/-- Handler whose config has route services disabled. -/
def sampleHandlerDisabled : RouteServiceHandler :=
  { routeRegistryLookup := fun _ => none,
    config := { sampleCfg with routeServiceEnabled := false } }

/-- The pool of the concrete scenario in the spec: route-service URL set. -/
def samplePool : Pool :=
  { routeServiceUrl := "https://rs.example.com/rs", isEmpty := false }

/-- The request of the concrete scenario in the spec: URI /foo on host
app.example.com, no signature header. -/
def sampleReq : Request :=
  { host := "app.example.com", requestURI := "/foo", headers := [],
    ctxRoutePool := some samplePool, ctxRouteServiceURL := none }

/-- Return-leg request carrying a valid signature and the other two
protocol headers. -/
def sampleReqGood : Request :=
  { sampleReq with headers :=
    [(RouteServiceSignature, "good"), (RouteServiceMetadata, "m"),
     (RouteServiceForwardedURL, "f"), ("Other", "x")] }

/-- Return-leg request carrying an invalid signature. -/
def sampleReqBad : Request :=
  { sampleReq with headers := [(RouteServiceSignature, "bad")] }

/-- Request whose pool has no route-service URL. -/
def sampleReqPlain : Request :=
  { sampleReq with ctxRoutePool := some sampleInternalPool }

/-! ## Claims about the redirection middleware -/

/-- C7: with a route pool present whose route-service URL is empty, the
middleware invokes the continuation exactly once with the request
unchanged (headers included), writes nothing to the response, and calls
neither the delegated proxy nor the signing collaborator; this holds for
any config and any signature header. -/
theorem passthrough_when_no_route_service (r : RouteServiceHandler) (req : Request)
    (pool : Pool) (hp : req.ctxRoutePool = some pool)
    (hurl : pool.routeServiceUrl = "") :
    (ServeHTTP r req).nextCalls = 1
    ∧ (ServeHTTP r req).nextRequest = some req
    ∧ (ServeHTTP r req).responseStatus = none
    ∧ (ServeHTTP r req).responseBody = ""
    ∧ (ServeHTTP r req).responseHeaders = []
    ∧ (ServeHTTP r req).proxyCalls = 0
    ∧ (ServeHTTP r req).signingCalls = [] := by
  simp [ServeHTTP, hp, hurl]

/-- C7 witness: the handler with an empty route-service URL passes the
request through unchanged, regardless of the enabled flag. -/
theorem passthrough_when_no_route_service_witness :
    (ServeHTTP sampleHandlerExternal sampleReqPlain).nextCalls = 1
    ∧ (ServeHTTP sampleHandlerExternal sampleReqPlain).nextRequest = some sampleReqPlain := by
  have h := passthrough_when_no_route_service sampleHandlerExternal sampleReqPlain
    sampleInternalPool rfl rfl
  exact ⟨h.1, h.2.1⟩

/-- C6: with a route pool whose route-service URL is non-empty while
route services are disabled, the middleware responds 502, sets the
X-Cf-RouterError response header to route_service_unsupported, writes
the fixed body, and never invokes the continuation or the proxy. -/
theorem disabled_route_service_rejected (r : RouteServiceHandler) (req : Request)
    (pool : Pool) (hp : req.ctxRoutePool = some pool)
    (hurl : pool.routeServiceUrl ≠ "")
    (hdis : r.config.routeServiceEnabled = false) :
    (ServeHTTP r req).responseStatus = some 502
    ∧ (ServeHTTP r req).responseHeaders.get "X-Cf-RouterError" = "route_service_unsupported"
    ∧ (ServeHTTP r req).responseBody = "Support for route services is disabled."
    ∧ (ServeHTTP r req).nextCalls = 0
    ∧ (ServeHTTP r req).proxyCalls = 0 := by
  have hred : ServeHTTP r req =
      writeStatus 502 "Support for route services is disabled."
        (Headers.set [] "X-Cf-RouterError" "route_service_unsupported") := by
    simp [ServeHTTP, hp, hurl, hdis]
  rw [hred]
  refine ⟨rfl, ?_, rfl, rfl, rfl⟩
  simp [writeStatus, Headers.get_set_self]

/-- C6 witness: the disabled handler rejects the sample request with 502
and the router-error header. -/
theorem disabled_route_service_rejected_witness :
    (ServeHTTP sampleHandlerDisabled sampleReq).responseStatus = some 502
    ∧ (ServeHTTP sampleHandlerDisabled sampleReq).responseHeaders.get "X-Cf-RouterError"
        = "route_service_unsupported"
    ∧ (ServeHTTP sampleHandlerDisabled sampleReq).nextCalls = 0 := by
  have h := disabled_route_service_rejected sampleHandlerDisabled sampleReq samplePool
    rfl (by decide) rfl
  exact ⟨h.1, h.2.1, h.2.2.2.1⟩

/-- C1: with a non-empty route-service URL and route services enabled,
the middleware classifies the request as return-leg exactly when the
signature header is present, regardless of signature validity; on
return-leg, failed validation against the forwarded URL responds 400
and never invokes the continuation, while successful validation deletes
the signature, metadata and forwarded-URL headers before invoking the
continuation, so the request handed to the continuation carries none of
the three; in both cases the signing collaborator is never called. -/
theorem returnLeg_classification (r : RouteServiceHandler) (req : Request)
    (pool : Pool) (hp : req.ctxRoutePool = some pool)
    (hurl : pool.routeServiceUrl ≠ "")
    (hen : r.config.routeServiceEnabled = true) :
    (hasBeenToRouteService pool.routeServiceUrl (req.headers.get RouteServiceSignature) = true
       ↔ req.headers.get RouteServiceSignature ≠ "")
    ∧ (∀ e, req.headers.get RouteServiceSignature ≠ "" →
        r.config.validateSignature req.headers (forwardedURLRaw r.config req) = some e →
        (ServeHTTP r req).responseStatus = some 400
        ∧ (ServeHTTP r req).nextCalls = 0
        ∧ (ServeHTTP r req).proxyCalls = 0
        ∧ (ServeHTTP r req).signingCalls = [])
    ∧ (req.headers.get RouteServiceSignature ≠ "" →
        r.config.validateSignature req.headers (forwardedURLRaw r.config req) = none →
        (ServeHTTP r req).nextCalls = 1
        ∧ (ServeHTTP r req).proxyCalls = 0
        ∧ (ServeHTTP r req).signingCalls = []
        ∧ ∃ q, (ServeHTTP r req).nextRequest = some q
            ∧ q.headers.get RouteServiceSignature = ""
            ∧ q.headers.get RouteServiceMetadata = ""
            ∧ q.headers.get RouteServiceForwardedURL = "") := by
  refine ⟨?_, ?_, ?_⟩
  · simp [hasBeenToRouteService, hurl]
  · intro e hsig hv
    have hb : hasBeenToRouteService pool.routeServiceUrl
        (req.headers.get RouteServiceSignature) = true := by
      simp [hasBeenToRouteService, hurl, hsig]
    simp [ServeHTTP, hp, hurl, hen, hb, hv, writeStatus]
  · intro hsig hv
    have hb : hasBeenToRouteService pool.routeServiceUrl
        (req.headers.get RouteServiceSignature) = true := by
      simp [hasBeenToRouteService, hurl, hsig]
    have hred : ServeHTTP r req =
        { responseStatus := none, responseBody := "", responseHeaders := []
          nextCalls := 1
          nextRequest := some { req with headers := ((req.headers.del RouteServiceSignature).del RouteServiceMetadata).del RouteServiceForwardedURL }
          proxyCalls := 0, proxyRequest := none, signingCalls := [] } := by
      simp [ServeHTTP, hp, hurl, hen, hb, hv]
    rw [hred]
    refine ⟨rfl, rfl, rfl, ⟨_, rfl, ?_, ?_, ?_⟩⟩
    · rw [Headers.get_del_ne _ _ _ (by decide), Headers.get_del_ne _ _ _ (by decide),
        Headers.get_del_self]
    · rw [Headers.get_del_ne _ _ _ (by decide), Headers.get_del_self]
    · rw [Headers.get_del_self]

/-- C1 witness: on the sample pool, the invalid-signature return-leg
request is rejected with 400 and no continuation, and the
valid-signature return-leg request reaches the continuation stripped of
the three protocol headers. -/
theorem returnLeg_classification_witness :
    (ServeHTTP sampleHandlerExternal sampleReqBad).responseStatus = some 400
    ∧ (ServeHTTP sampleHandlerExternal sampleReqBad).nextCalls = 0
    ∧ (ServeHTTP sampleHandlerExternal sampleReqGood).nextCalls = 1
    ∧ (∃ q, (ServeHTTP sampleHandlerExternal sampleReqGood).nextRequest = some q
        ∧ q.headers.get RouteServiceSignature = ""
        ∧ q.headers.get RouteServiceMetadata = ""
        ∧ q.headers.get RouteServiceForwardedURL = "") := by
  have hB := returnLeg_classification sampleHandlerExternal sampleReqBad samplePool
    rfl (by decide) rfl
  have hG := returnLeg_classification sampleHandlerExternal sampleReqGood samplePool
    rfl (by decide) rfl
  have hBbad := hB.2.1 "invalid" (by decide) (by decide)
  have hGgood := hG.2.2 (by decide) (by decide)
  exact ⟨hBbad.1, hBbad.2.1, hGgood.1, hGgood.2.2.2⟩

/-- C2: with a non-empty route-service URL, route services enabled and
no signature header, the middleware calls the signing collaborator
exactly once, with the route-service URL and a forwarded URL equal to
the concatenation of the scheme chosen by the recommend-HTTPS flag, the
separator, the host without its port and the original request URI; this
holds whether the collaborator succeeds or fails. -/
theorem outbound_signs_forwarded_url (r : RouteServiceHandler) (req : Request)
    (pool : Pool) (hp : req.ctxRoutePool = some pool)
    (hurl : pool.routeServiceUrl ≠ "")
    (hen : r.config.routeServiceEnabled = true)
    (hsig : req.headers.get RouteServiceSignature = "") :
    (ServeHTTP r req).signingCalls =
      [(pool.routeServiceUrl,
        (if r.config.recommendHttps then "https" else "http") ++ "://"
          ++ hostWithoutPort req ++ req.requestURI)] := by
  have hb : hasBeenToRouteService pool.routeServiceUrl
      (req.headers.get RouteServiceSignature) = false := by
    simp [hasBeenToRouteService, hsig]
  have hfwd : forwardedURLRaw r.config req =
      (if r.config.recommendHttps then "https" else "http") ++ "://"
        ++ hostWithoutPort req ++ req.requestURI := rfl
  have main : (ServeHTTP r req).signingCalls
      = [(pool.routeServiceUrl, forwardedURLRaw r.config req)] := by
    cases hg : r.config.generateRequest pool.routeServiceUrl (forwardedURLRaw r.config req) with
    | error e =>
        simp [ServeHTTP, hp, hurl, hen, hb, hg, writeStatus]
    | ok args =>
        cases hlook : poolNilOrEmpty
            (r.routeRegistryLookup (args.parsedUrl.host ++ args.parsedUrl.path)) with
        | true => simp [ServeHTTP, hp, hurl, hen, hb, hg, hlook]
        | false => simp [ServeHTTP, hp, hurl, hen, hb, hg, hlook]
  rw [main, hfwd]

/-- C2 witness, the concrete scenario of the spec: request URI /foo, host
app.example.com, recommend-HTTPS true, route-service URL
https://rs.example.com/rs: the signing collaborator is called exactly
once with forwarded URL https://app.example.com/foo. -/
theorem outbound_signs_forwarded_url_witness :
    (ServeHTTP sampleHandlerExternal sampleReq).signingCalls =
      [("https://rs.example.com/rs", "https://app.example.com/foo")] := by
  have h := outbound_signs_forwarded_url sampleHandlerExternal sampleReq samplePool
    rfl (by decide) rfl rfl
  rw [h]
  decide

/-- A request carries the signed outbound state when its three protocol
headers hold the signed parameters, the parsed route-service URL is
recorded under the route-service context key and the resolved pool is
recorded under the route-pool context key. -/
def carriesSignedState (o : Option Request) (args : RouteServiceRequest)
    (rsPool : Option Pool) : Prop :=
  ∃ q, o = some q
    ∧ q.headers.get RouteServiceSignature = args.signature
    ∧ q.headers.get RouteServiceMetadata = args.metadata
    ∧ q.headers.get RouteServiceForwardedURL = args.forwardedURL
    ∧ q.ctxRouteServiceURL = some args.parsedUrl
    ∧ q.ctxRoutePool = rsPool

theorem signed_headers_gets (h : Headers) (s m f : String) :
    (((h.set RouteServiceSignature s).set RouteServiceMetadata m).set
        RouteServiceForwardedURL f).get RouteServiceSignature = s
    ∧ (((h.set RouteServiceSignature s).set RouteServiceMetadata m).set
        RouteServiceForwardedURL f).get RouteServiceMetadata = m
    ∧ (((h.set RouteServiceSignature s).set RouteServiceMetadata m).set
        RouteServiceForwardedURL f).get RouteServiceForwardedURL = f := by
  refine ⟨?_, ?_, ?_⟩
  · rw [Headers.get_set_ne _ _ _ _ (by decide), Headers.get_set_ne _ _ _ _ (by decide),
      Headers.get_set_self]
  · rw [Headers.get_set_ne _ _ _ _ (by decide), Headers.get_set_self]
  · rw [Headers.get_set_self]

/-- C3: when the signing collaborator succeeds on the outbound leg, the
outgoing request carries the three signed headers, the parsed URL in
the route-service context key and the registry pool for parsed host
and path in the route-pool context key; if that pool is nil or empty
the delegated route-service proxy is invoked exactly once and the
continuation never, and if it is non-empty the continuation is invoked
exactly once and the delegated proxy never. -/
theorem outbound_success_dispatch (r : RouteServiceHandler) (req : Request)
    (pool : Pool) (args : RouteServiceRequest)
    (hp : req.ctxRoutePool = some pool)
    (hurl : pool.routeServiceUrl ≠ "")
    (hen : r.config.routeServiceEnabled = true)
    (hsig : req.headers.get RouteServiceSignature = "")
    (hgen : r.config.generateRequest pool.routeServiceUrl (forwardedURLRaw r.config req)
      = Except.ok args) :
    (poolNilOrEmpty (r.routeRegistryLookup (args.parsedUrl.host ++ args.parsedUrl.path)) = true →
      (ServeHTTP r req).proxyCalls = 1
      ∧ (ServeHTTP r req).nextCalls = 0
      ∧ carriesSignedState (ServeHTTP r req).proxyRequest args
          (r.routeRegistryLookup (args.parsedUrl.host ++ args.parsedUrl.path)))
    ∧ (poolNilOrEmpty (r.routeRegistryLookup (args.parsedUrl.host ++ args.parsedUrl.path)) = false →
      (ServeHTTP r req).nextCalls = 1
      ∧ (ServeHTTP r req).proxyCalls = 0
      ∧ carriesSignedState (ServeHTTP r req).nextRequest args
          (r.routeRegistryLookup (args.parsedUrl.host ++ args.parsedUrl.path))) := by
  have hb : hasBeenToRouteService pool.routeServiceUrl
      (req.headers.get RouteServiceSignature) = false := by
    simp [hasBeenToRouteService, hsig]
  have hgets := signed_headers_gets req.headers args.signature args.metadata args.forwardedURL
  constructor
  · intro hlook
    have hred : ServeHTTP r req =
        { responseStatus := none, responseBody := "", responseHeaders := [], nextCalls := 0, nextRequest := none, proxyCalls := 1, proxyRequest := some { req with headers := ((req.headers.set RouteServiceSignature args.signature).set RouteServiceMetadata args.metadata).set RouteServiceForwardedURL args.forwardedURL, ctxRouteServiceURL := some args.parsedUrl, ctxRoutePool := r.routeRegistryLookup (args.parsedUrl.host ++ args.parsedUrl.path) }, signingCalls := [(pool.routeServiceUrl, forwardedURLRaw r.config req)] } := by
      simp [ServeHTTP, hp, hurl, hen, hb, hgen, hlook]
    rw [hred]
    exact ⟨rfl, rfl, ⟨_, rfl, hgets.1, hgets.2.1, hgets.2.2, rfl, rfl⟩⟩
  · intro hlook
    have hred : ServeHTTP r req =
        { responseStatus := none, responseBody := "", responseHeaders := [], nextCalls := 1, nextRequest := some { req with headers := ((req.headers.set RouteServiceSignature args.signature).set RouteServiceMetadata args.metadata).set RouteServiceForwardedURL args.forwardedURL, ctxRouteServiceURL := some args.parsedUrl, ctxRoutePool := r.routeRegistryLookup (args.parsedUrl.host ++ args.parsedUrl.path) }, proxyCalls := 0, proxyRequest := none, signingCalls := [(pool.routeServiceUrl, forwardedURLRaw r.config req)] } := by
      simp [ServeHTTP, hp, hurl, hen, hb, hgen, hlook]
    rw [hred]
    exact ⟨rfl, rfl, ⟨_, rfl, hgets.1, hgets.2.1, hgets.2.2, rfl, rfl⟩⟩

/-- C3 witness: with the sample signing collaborator, the registry that
resolves no pool sends the request to the delegated proxy exactly once
with the signed headers and context set, and the registry that resolves
a non-empty pool invokes the continuation exactly once likewise. -/
theorem outbound_success_dispatch_witness :
    (ServeHTTP sampleHandlerExternal sampleReq).proxyCalls = 1
    ∧ (ServeHTTP sampleHandlerExternal sampleReq).nextCalls = 0
    ∧ carriesSignedState (ServeHTTP sampleHandlerExternal sampleReq).proxyRequest
        { urlString := "https://rs.example.com/rs", signature := "sig1", metadata := "md1", forwardedURL := "https://app.example.com/foo", parsedUrl := sampleParsed }
        none
    ∧ (ServeHTTP sampleHandlerInternal sampleReq).nextCalls = 1
    ∧ (ServeHTTP sampleHandlerInternal sampleReq).proxyCalls = 0
    ∧ (ServeHTTP sampleHandlerEmptyPool sampleReq).proxyCalls = 1 := by
  have hx := outbound_success_dispatch sampleHandlerExternal sampleReq samplePool
    { urlString := "https://rs.example.com/rs", signature := "sig1", metadata := "md1", forwardedURL := "https://app.example.com/foo", parsedUrl := sampleParsed }
    rfl (by decide) rfl rfl rfl
  have hi := outbound_success_dispatch sampleHandlerInternal sampleReq samplePool
    { urlString := "https://rs.example.com/rs", signature := "sig1", metadata := "md1", forwardedURL := "https://app.example.com/foo", parsedUrl := sampleParsed }
    rfl (by decide) rfl rfl rfl
  have he := outbound_success_dispatch sampleHandlerEmptyPool sampleReq samplePool
    { urlString := "https://rs.example.com/rs", signature := "sig1", metadata := "md1", forwardedURL := "https://app.example.com/foo", parsedUrl := sampleParsed }
    rfl (by decide) rfl rfl rfl
  have hx1 := hx.1 rfl
  have hi1 := hi.2 rfl
  have he1 := he.1 rfl
  exact ⟨hx1.1, hx1.2.1, hx1.2.2, hi1.1, hi1.2.1, he1.1⟩

end Gorouter
